import Mathlib

set_option maxHeartbeats 1000000

namespace DataWise

/-
Shallow embedding of the DataWise_Desktop repository.
The only executable source under version control is the Tauri front-end
src/datawise-tauri/src/App.tsx; the datawise-core engine exists in the
repository only as design documents, so engine-side behaviour is modelled
from the spec where a claim needs it (each such definition says so in its
doc comment).
-/

/-- Result envelope the execute_sql invocation resolves to
(App.tsx, QueryResult). -/
structure QueryResult where
  row_count : Nat
  column_count : Nat
  preview : String
deriving Repr, DecidableEq

/-- Result the import_file and export_file invocations resolve to
(App.tsx, OperationResult). -/
structure OperationResult where
  success : Bool
  message : String
deriving Repr, DecidableEq

/-- The React component state of App.tsx: one field per useState hook. -/
structure AppState where
  sql : String
  result : Option QueryResult
  loading : Bool
  error : Option String
  importPath : String
  importFormat : String
  importTableName : String
  importLoading : Bool
  importError : Option String
  importSuccess : Option String
  exportSource : String
  exportPath : String
  exportFormat : String
  exportLoading : Bool
  exportError : Option String
  exportSuccess : Option String
deriving Repr, DecidableEq

/-- The initial state of App.tsx: the useState initializers. -/
def initState : AppState :=
  { sql := "SELECT 1 as num"
    result := none
    loading := false
    error := none
    importPath := ""
    importFormat := "csv"
    importTableName := ""
    importLoading := false
    importError := none
    importSuccess := none
    exportSource := ""
    exportPath := ""
    exportFormat := "csv"
    exportLoading := false
    exportError := none
    exportSuccess := none }

/-- A JavaScript value occurring in an invoke argument object:
null, a string, or a boolean. -/
inductive JVal where
  | jnull : JVal
  | jstr : String → JVal
  | jbool : Bool → JVal
deriving Repr, DecidableEq

/-- The table_name argument computed by handleImport (App.tsx line 67):
the JS expression importTableName || null, which is null exactly when
the importTableName input holds the empty string (the only falsy string). -/
def tableNameArg (importTableName : String) : JVal :=
  if importTableName = "" then JVal.jnull else JVal.jstr importTableName

/-- The argument object handleImport passes to invoke with command name
import_file (App.tsx lines 64-68): a JS object literal with exactly the
keys path, format and table_name. -/
def importInvokeArgs (s : AppState) : List (String × JVal) :=
  [("path", JVal.jstr s.importPath),
   ("format", JVal.jstr s.importFormat),
   ("table_name", tableNameArg s.importTableName)]

/-- The argument object handleExport passes to invoke with command name
export_file (App.tsx lines 90-94). -/
def exportInvokeArgs (s : AppState) : List (String × JVal) :=
  [("source", JVal.jstr s.exportSource),
   ("path", JVal.jstr s.exportPath),
   ("format", JVal.jstr s.exportFormat)]

/-- executeSql from App.tsx lines 43-56, parameterized by the outcome of
the awaited invoke call (Except.ok = the promise resolved to a
QueryResult, Except.error = it rejected and the catch branch stored the
stringified error): loading is set for the duration of the call, error
and result are cleared up front, the directly returned QueryResult is
stored in result on success, and loading is cleared in the finally block. -/
def executeSql (s : AppState) (outcome : Except String QueryResult) : AppState :=
  let s1 := { s with loading := true, error := none, result := none }
  let s2 :=
    match outcome with
    | Except.ok q => { s1 with result := some q }
    | Except.error e => { s1 with error := some e }
  { s2 with loading := false }

/-- The values of the options of the import-format select
(App.tsx lines 226-233). -/
def importFormatOptions : List String := ["csv", "parquet"]

/-- The values of the options of the export-format select
(App.tsx lines 292-299). -/
def exportFormatOptions : List String := ["csv", "parquet"]

/-- Claim C1 counterexample: the claim asserts that every ImportFile
command submitted through the external interface carries the four payload
fields path, format, table_name and overwrite; but the argument object
the front-end's handleImport passes to the import_file invocation at the
initial state carries no overwrite key at all. -/
theorem importInvoke_no_overwrite_cex :
    "overwrite" ∉ (importInvokeArgs initState).map Prod.fst := by
  decide

/-- Claim C1 (amended): the front-end's import invocation carries exactly
the three payload fields path, format and table_name; the overwrite flag
is absent from every ImportFile submission the front-end makes. -/
theorem importInvoke_fields (s : AppState) :
    (importInvokeArgs s).map Prod.fst = ["path", "format", "table_name"] ∧
    "overwrite" ∉ (importInvokeArgs s).map Prod.fst := by
  refine ⟨rfl, ?_⟩
  simp [importInvokeArgs]

/-- Claim C2 counterexample: the claim asserts the front-end does not
obtain the result of an ExecuteSql command as a direct return value of
the submission call; but in App.tsx the awaited invoke of execute_sql
resolves to the QueryResult itself and executeSql stores that directly
returned value in the result state — here exhibited at a concrete input,
where the displayed result both equals the returned envelope and varies
with it. -/
theorem executeSql_direct_result_cex :
    (executeSql initState (Except.ok ⟨1, 1, "[1]"⟩)).result
        = some ⟨1, 1, "[1]"⟩ ∧
    (executeSql initState (Except.ok ⟨1, 1, "[1]"⟩)).result
        ≠ (executeSql initState (Except.ok ⟨2, 3, "other"⟩)).result := by
  exact ⟨rfl, by decide⟩

/-- Claim C2 (amended): the front-end's execute_sql submission is
request/response rather than fire-and-forget: the awaited invoke call
resolves directly to the QueryResult (or rejects with an error string),
executeSql stores that directly returned value in the result state (the
rejection message in the error state), and no event stream is consulted;
the loading flag is cleared once the call returns. -/
theorem executeSql_request_response (s : AppState) (q : QueryResult) (e : String) :
    (executeSql s (Except.ok q)).result = some q ∧
    (executeSql s (Except.ok q)).error = none ∧
    (executeSql s (Except.error e)).result = none ∧
    (executeSql s (Except.error e)).error = some e ∧
    (executeSql s (Except.ok q)).loading = false ∧
    (executeSql s (Except.error e)).loading = false := by
  exact ⟨rfl, rfl, rfl, rfl, rfl, rfl⟩

/-- Claim C5 counterexample: the claim asserts each of the three formats
delimited-text, columnar-binary and line-delimited-structured can be
selected at the front-end for both import and export; but both format
selects offer exactly the two option values csv and parquet, so the
line-delimited-structured format (wire value json in the repository's
protocol documents) cannot be selected for either operation. -/
theorem formatOptions_cex :
    importFormatOptions = ["csv", "parquet"] ∧
    exportFormatOptions = ["csv", "parquet"] ∧
    "json" ∉ importFormatOptions ∧
    "json" ∉ exportFormatOptions := by
  refine ⟨rfl, rfl, ?_, ?_⟩ <;> decide

/-- Claim C5 (amended): the format field the front-end can submit ranges
over the closed two-element enumeration csv (delimited-text) and parquet
(columnar-binary), the same for import and export; the
line-delimited-structured format is not selectable at the front-end. -/
theorem formatOptions_closed (f : String) :
    (f ∈ importFormatOptions ↔ f = "csv" ∨ f = "parquet") ∧
    (f ∈ exportFormatOptions ↔ f = "csv" ∨ f = "parquet") := by
  constructor <;> simp [importFormatOptions, exportFormatOptions]

/-- handleImport from App.tsx lines 58-82, parameterized by the outcome
of the awaited import_file invocation: importLoading is toggled around
the call and both messages are cleared up front; on a resolved result
with success the message is shown and importPath and importTableName are
cleared; on a resolved result with success=false only the error message
is set; on rejection the stringified error is set; no other state field
is written. -/
def handleImport (s : AppState) (outcome : Except String OperationResult) : AppState :=
  let s1 := { s with importLoading := true, importError := none, importSuccess := none }
  let s2 :=
    match outcome with
    | Except.ok r =>
      if r.success then
        { s1 with importSuccess := some r.message, importPath := "", importTableName := "" }
      else
        { s1 with importError := some r.message }
    | Except.error e => { s1 with importError := some e }
  { s2 with importLoading := false }

/-- handleExport from App.tsx lines 84-107, parameterized by the outcome
of the awaited export_file invocation: on success the message is shown
and exportPath is cleared (exportSource is kept); on success=false or
rejection only the error message is set. -/
def handleExport (s : AppState) (outcome : Except String OperationResult) : AppState :=
  let s1 := { s with exportLoading := true, exportError := none, exportSuccess := none }
  let s2 :=
    match outcome with
    | Except.ok r =>
      if r.success then
        { s1 with exportSuccess := some r.message, exportPath := "" }
      else
        { s1 with exportError := some r.message }
    | Except.error e => { s1 with exportError := some e }
  { s2 with exportLoading := false }

/-- The disabled condition of the import submit button (App.tsx line 247):
the JS expression importLoading || !importPath, where the empty string is
the only falsy string value. -/
def importButtonDisabled (s : AppState) : Bool :=
  s.importLoading || s.importPath = ""

/-- The disabled condition of the export submit button (App.tsx line 302):
exportLoading || !exportSource || !exportPath. -/
def exportButtonDisabled (s : AppState) : Bool :=
  s.exportLoading || s.exportSource = "" || s.exportPath = ""

/-- Modelled from the spec: the Importer's table-name resolution — the
datawise-core Importer is not among the repository's sources — which,
when the command omits table_name, resolves it to the source file's base
name (the component after the last slash) with the extension (the part
from the last dot on) stripped. -/
def baseNameNoExt (path : String) : String :=
  let base := path.toList.foldl (fun acc c => if c = '/' then [] else acc ++ [c]) []
  let stem :=
    if '.' ∈ base then ((base.reverse.dropWhile (fun c => c ≠ '.')).drop 1).reverse
    else base
  String.mk stem

/-- Modelled from the spec: resolution of the optional table_name of an
ImportFile command — the supplied name when present, otherwise the source
file's base name with the extension stripped. -/
def resolveTableName (tableName : Option String) (path : String) : String :=
  match tableName with
  | some t => t
  | none => baseNameNoExt path

/-- Claim C6: the front-end submits a null table_name exactly when the
table-name input is the empty string (the JS expression
importTableName || null), a supplied table_name is used as given, and an
omitted table_name resolves to the source file's base name with the
extension stripped — importing sample.csv with a null table_name yields
the table name sample. -/
theorem tableName_resolution (t : String) (p : String) :
    (tableNameArg t = JVal.jnull ↔ t = "") ∧
    ((importInvokeArgs { initState with importTableName := t }).map Prod.snd).getLast?
        = some (tableNameArg t) ∧
    resolveTableName (some t) p = t ∧
    resolveTableName none "sample.csv" = "sample" ∧
    resolveTableName none "/data/in/sample.csv" = "sample" := by
  refine ⟨?_, rfl, rfl, by decide, by decide⟩
  unfold tableNameArg
  split
  · simp_all
  · simp_all

/-- Claim C9: the import submit button is enabled exactly when no import
is in flight and the file path is nonempty, and the export submit button
is enabled exactly when no export is in flight and both the source and
the destination path are nonempty; hence the front-end never invokes
import_file with an empty path nor export_file with an empty source or
empty destination. -/
theorem submit_button_guards (s : AppState) :
    (importButtonDisabled s = false ↔
      s.importLoading = false ∧ s.importPath ≠ "") ∧
    (exportButtonDisabled s = false ↔
      s.exportLoading = false ∧ s.exportSource ≠ "" ∧ s.exportPath ≠ "") := by
  constructor <;> simp [importButtonDisabled, exportButtonDisabled, and_assoc]

/-- Claim C10: failed operations leave the form inputs unchanged —
handleImport clears importPath and importTableName exactly on a
successful resolved result and keeps them on a failed result or a
rejection, handleExport clears exportPath exactly on success, and
neither handler touches any other form input (sql, formats, the other
operation's fields, or exportSource even on a successful export),
whatever the outcome. -/
theorem handler_frame (s : AppState) (r : OperationResult) (e : String) :
    (handleImport s (Except.ok r)).importPath
        = (if r.success then "" else s.importPath) ∧
    (handleImport s (Except.ok r)).importTableName
        = (if r.success then "" else s.importTableName) ∧
    (handleImport s (Except.error e)).importPath = s.importPath ∧
    (handleImport s (Except.error e)).importTableName = s.importTableName ∧
    (handleExport s (Except.ok r)).exportPath
        = (if r.success then "" else s.exportPath) ∧
    (handleExport s (Except.error e)).exportPath = s.exportPath ∧
    (∀ o : Except String OperationResult,
      (handleImport s o).sql = s.sql ∧
      (handleImport s o).importFormat = s.importFormat ∧
      (handleImport s o).exportSource = s.exportSource ∧
      (handleImport s o).exportPath = s.exportPath ∧
      (handleImport s o).exportFormat = s.exportFormat ∧
      (handleExport s o).sql = s.sql ∧
      (handleExport s o).exportSource = s.exportSource ∧
      (handleExport s o).exportFormat = s.exportFormat ∧
      (handleExport s o).importPath = s.importPath ∧
      (handleExport s o).importTableName = s.importTableName ∧
      (handleExport s o).importFormat = s.importFormat) := by
  refine ⟨?_, ?_, rfl, rfl, ?_, rfl, ?_⟩
  · by_cases h : r.success <;> simp [handleImport, h]
  · by_cases h : r.success <;> simp [handleImport, h]
  · by_cases h : r.success <;> simp [handleExport, h]
  · intro o
    rcases o with e2 | r2
    · simp [handleImport, handleExport]
    · by_cases h : r2.success <;> simp [handleImport, handleExport, h]

/-- A JSON value as produced by JSON.parse. -/
inductive Json where
  | jnull : Json
  | jbool : Bool → Json
  | jnum : Int → Json
  | jstr : String → Json
  | jarr : List Json → Json
  | jobj : List (String × Json) → Json

/-- parsePreview from App.tsx lines 109-116, with JSON.parse abstracted
as a function returning none exactly when parsing throws: the empty list
when there is no result, the empty list when result.preview is not valid
JSON (the catch branch), and the parsed value otherwise. -/
def parsePreview (result : Option QueryResult) (jsonParse : String → Option Json) : Json :=
  match result with
  | none => Json.jarr []
  | some r =>
    match jsonParse r.preview with
    | none => Json.jarr []
    | some v => v

/-- A thrown JS TypeError. -/
inductive JsError where
  | typeError : JsError
deriving Repr, DecidableEq

/-- First binding of a key among a JS object's fields. -/
def lookupField (fields : List (String × Json)) (key : String) : Option Json :=
  match fields with
  | [] => none
  | (k, v) :: rest => if k = key then some v else lookupField rest key

/-- The property read previewData.length (App.tsx line 178): reading any
property of null throws a TypeError; an array yields its element count
and a string its character count; number and boolean primitives have no
length property (undefined); an object yields the value of its length
field when it has one and undefined otherwise. -/
def lengthRead : Json → Except JsError (Option Json)
  | Json.jnull => Except.error JsError.typeError
  | Json.jarr l => Except.ok (some (Json.jnum (l.length : Int)))
  | Json.jstr s => Except.ok (some (Json.jnum (s.length : Int)))
  | Json.jnum _ => Except.ok none
  | Json.jbool _ => Except.ok none
  | Json.jobj fields => Except.ok (lookupField fields "length")

/-- A digit string read as a natural number. -/
def natOfDigits (cs : List Char) : Nat :=
  cs.foldl (fun n c => n * 10 + (c.toNat - 48)) 0

/-- JS ToNumber on a string, over the integral literals representable in
this Json model: the empty string is zero, an optional minus followed by
digits is that integer, any other string is NaN (none). -/
def strToNumber (s : String) : Option Int :=
  match s.toList with
  | [] => some 0
  | '-' :: rest =>
    if !rest.isEmpty && rest.all Char.isDigit then some (-(natOfDigits rest : Int))
    else none
  | cs =>
    if cs.all Char.isDigit then some ((natOfDigits cs : Int)) else none

/-- The JS comparison value > 0 applied to the possibly-undefined length
value: undefined and null compare false, a number compares by value, a
boolean as 0 or 1, a string through ToNumber (NaN compares false), a
one-number array through its element, and any other array or an object
as zero or NaN (false). -/
def jsGtZero : Option Json → Bool
  | none => false
  | some Json.jnull => false
  | some (Json.jbool b) => b
  | some (Json.jnum n) => decide (0 < n)
  | some (Json.jstr s) =>
    match strToNumber s with
    | some n => decide (0 < n)
    | none => false
  | some (Json.jarr [Json.jnum n]) => decide (0 < n)
  | some (Json.jarr _) => false
  | some (Json.jobj _) => false

/-- The rendering guard previewData.length > 0 (App.tsx line 178): the
length read may itself throw (it does on a null previewData); otherwise
its value is compared against zero under JS coercion. -/
def lengthGuard (v : Json) : Except JsError Bool :=
  match lengthRead v with
  | Except.error e => Except.error e
  | Except.ok lv => Except.ok (jsGtZero lv)

/-- The JS read previewData[0] (App.tsx line 183): indexing null throws a
TypeError; an array yields its first element (undefined when empty), a
string its first character, an object the value of its field named 0
when it has one, and a number or boolean primitive undefined. -/
def indexZero : Json → Except JsError (Option Json)
  | Json.jnull => Except.error JsError.typeError
  | Json.jarr (x :: _) => Except.ok (some x)
  | Json.jarr [] => Except.ok none
  | Json.jstr s =>
    Except.ok (if s.isEmpty then none else some (Json.jstr (String.mk [s.front])))
  | Json.jobj fields => Except.ok (lookupField fields "0")
  | _ => Except.ok none

/-- Object.keys (App.tsx line 183): throws a TypeError on undefined and
on null; yields the field names of an object, the index strings of an
array or a string, and the empty list for a number or boolean. -/
def objectKeys : Option Json → Except JsError (List String)
  | none => Except.error JsError.typeError
  | some Json.jnull => Except.error JsError.typeError
  | some (Json.jobj fields) => Except.ok (fields.map Prod.fst)
  | some (Json.jarr l) => Except.ok ((List.range l.length).map (fun i => toString i))
  | some (Json.jstr s) => Except.ok ((List.range s.length).map (fun i => toString i))
  | some _ => Except.ok []

/-- The header-row evaluation of the result table (App.tsx lines
178-186): the guard previewData.length > 0 is evaluated first and a
throw there propagates; when it is false nothing is rendered; when it
holds, Object.keys of the previewData[0] read builds the header, and
either of those reads can throw too. -/
def renderedHeader (v : Json) : Except JsError (Option (List String)) :=
  match lengthGuard v with
  | Except.error e => Except.error e
  | Except.ok false => Except.ok none
  | Except.ok true =>
    match indexZero v with
    | Except.error e => Except.error e
    | Except.ok elem0 =>
      match objectKeys elem0 with
      | Except.error e => Except.error e
      | Except.ok ks => Except.ok (some ks)

/-- Claim C8 counterexample: the claim asserts that computing the
displayed preview is total; but the preview string null is valid JSON,
so parsePreview hands the parsed null through without entering its catch
branch, and evaluating the rendering guard previewData.length > 0 on it
throws a TypeError (App.tsx line 178) that escapes the displayed-preview
computation. -/
theorem previewRender_throws_cex :
    parsePreview (some ⟨1, 1, "null"⟩)
        (fun s => if s = "null" then some Json.jnull else none) = Json.jnull ∧
    renderedHeader (parsePreview (some ⟨1, 1, "null"⟩)
        (fun s => if s = "null" then some Json.jnull else none))
      = Except.error JsError.typeError := by
  constructor
  · rfl
  · rfl

/-- Claim C8 (amended): parsePreview itself is total — with no result or
an invalid-JSON preview string it returns the empty list and the
JSON.parse exception never escapes it; the header row is evaluated only
when the rendering guard passes; on an array preview the guard is
exception-free and passes exactly when the array is nonempty, so an
empty preview is never indexed, and when the first row is an object the
header is that row's field names; that totality is limited to arrays —
a valid JSON preview that is not an array can make the guard's length
read itself throw. -/
theorem previewRender_behavior (jsonParse : String → Option Json)
    (r : QueryResult) (l : List Json) (fs : List (String × Json))
    (rest : List Json) (v : Json) :
    (parsePreview none jsonParse = Json.jarr []) ∧
    (jsonParse r.preview = none → parsePreview (some r) jsonParse = Json.jarr []) ∧
    (renderedHeader (Json.jarr []) = Except.ok none) ∧
    (lengthGuard (Json.jarr l) = Except.ok (decide (0 < l.length))) ∧
    (renderedHeader (Json.jarr (Json.jobj fs :: rest))
        = Except.ok (some (fs.map Prod.fst))) ∧
    (lengthGuard v = Except.ok false → renderedHeader v = Except.ok none) := by
  refine ⟨rfl, ?_, rfl, ?_, ?_, ?_⟩
  · intro h
    simp [parsePreview, h]
  · cases l with
    | nil => rfl
    | cons x xs => simp [lengthGuard, lengthRead, jsGtZero]
  · simp [renderedHeader, lengthGuard, lengthRead, jsGtZero, indexZero, objectKeys]
  · intro h
    simp [renderedHeader, h]

/-- Claim C8 witness: the amended theorem applied at a concrete failing
parser and result, and at a concrete boolean preview value on which the
guard evaluates to false. -/
theorem previewRender_behavior_witness :
    parsePreview (some ⟨1, 1, "not json"⟩) (fun _ => none) = Json.jarr [] ∧
    renderedHeader (Json.jbool true) = Except.ok none := by
  exact ⟨(previewRender_behavior (fun _ => none) ⟨1, 1, "not json"⟩ [] [] []
            (Json.jbool true)).2.1 rfl,
         (previewRender_behavior (fun _ => none) ⟨1, 1, "not json"⟩ [] [] []
            (Json.jbool true)).2.2.2.2.2 rfl⟩

/-- Progress payload of the event protocol (documented protocol of
datawise-core: pct, bytes_processed, total_bytes, eta_seconds). -/
structure ProgressInfo where
  pct : Nat
  bytes_processed : Nat
  total_bytes : Nat
  eta_seconds : Option Nat
deriving Repr, DecidableEq

/-- EventKind of the event protocol: Started, Progress, Finished with the
result counts and preview, Error with a message. -/
inductive EventKind where
  | started : EventKind
  | progress : ProgressInfo → EventKind
  | finished : Nat → Nat → String → EventKind
  | error : String → EventKind
deriving Repr, DecidableEq

/-- An event of the protocol: the task it belongs to and its kind. -/
structure Event where
  task_id : Nat
  kind : EventKind
deriving Repr, DecidableEq

/-- Whether an event is a Started event. -/
def isStartedEvent (e : Event) : Bool :=
  match e.kind with
  | EventKind.started => true
  | _ => false

/-- Whether an event is a Progress event. -/
def isProgressEvent (e : Event) : Bool :=
  match e.kind with
  | EventKind.progress _ => true
  | _ => false

/-- Whether an event is a terminal (Finished or Error) event. -/
def isTerminalEvent (e : Event) : Bool :=
  match e.kind with
  | EventKind.finished _ _ _ => true
  | EventKind.error _ => true
  | _ => false

/-- Outcome of a task's asynchronous work: normal completion with the
result summary, or a failure (including observed cancellation). -/
inductive TaskOutcome where
  | finished : Nat → Nat → String → TaskOutcome
  | error : String → TaskOutcome
deriving Repr, DecidableEq

/-- The terminal event a task outcome turns into. -/
def terminalEvent (id : Nat) : TaskOutcome → Event
  | TaskOutcome.finished rc cc pv => ⟨id, EventKind.finished rc cc pv⟩
  | TaskOutcome.error m => ⟨id, EventKind.error m⟩

/-- Modelled from the spec: the event trace the Core Engine orchestrator
emits for one dispatched task that is not silently dropped — the
datawise-core orchestrator is not among the repository's sources — a
Started event, then the task's zero or more Progress events, then the
single terminal event carrying the outcome. -/
def taskTrace (id : Nat) (progress : List ProgressInfo) (outcome : TaskOutcome) :
    List Event :=
  ⟨id, EventKind.started⟩ ::
    (progress.map (fun p => ⟨id, EventKind.progress p⟩) ++ [terminalEvent id outcome])

/-- The per-task lifecycle discipline of an event trace: exactly one
Started event which comes first, exactly one terminal event which comes
last, and nothing but Progress events strictly in between. -/
def lifecycleOk (tr : List Event) : Bool :=
  tr.countP isStartedEvent = 1 &&
  tr.countP isTerminalEvent = 1 &&
  (match tr.head? with
   | some e => isStartedEvent e
   | none => false) &&
  (match tr.getLast? with
   | some e => isTerminalEvent e
   | none => false) &&
  (tr.drop 1).dropLast.all isProgressEvent

theorem countP_progress_map_started (id : Nat) (ps : List ProgressInfo) :
    (ps.map (fun p => (⟨id, EventKind.progress p⟩ : Event))).countP isStartedEvent = 0 := by
  rw [List.countP_eq_zero]
  intro e he
  rcases List.mem_map.mp he with ⟨p, _, rfl⟩
  simp [isStartedEvent]

theorem countP_progress_map_terminal (id : Nat) (ps : List ProgressInfo) :
    (ps.map (fun p => (⟨id, EventKind.progress p⟩ : Event))).countP isTerminalEvent = 0 := by
  rw [List.countP_eq_zero]
  intro e he
  rcases List.mem_map.mp he with ⟨p, _, rfl⟩
  simp [isTerminalEvent]

theorem terminalEvent_is_terminal (id : Nat) (o : TaskOutcome) :
    isTerminalEvent (terminalEvent id o) = true := by
  cases o <;> simp [terminalEvent, isTerminalEvent]

theorem terminalEvent_not_started (id : Nat) (o : TaskOutcome) :
    isStartedEvent (terminalEvent id o) = false := by
  cases o <;> simp [terminalEvent, isStartedEvent]

/-- Claim C3: for every task that is not silently dropped the emitted
trace satisfies the lifecycle discipline — exactly one Started which is
the first event, exactly one terminal Finished-or-Error which is the
last event, only Progress events in between — and positionally, any
Progress event in the trace sits at an index strictly after the Started
event and strictly before the terminal event. -/
theorem trace_countP_started (id : Nat) (ps : List ProgressInfo) (o : TaskOutcome) :
    (taskTrace id ps o).countP isStartedEvent = 1 := by
  unfold taskTrace
  rw [List.countP_cons, List.countP_append, countP_progress_map_started,
    List.countP_cons, List.countP_nil, terminalEvent_not_started]
  simp [isStartedEvent]

theorem trace_countP_terminal (id : Nat) (ps : List ProgressInfo) (o : TaskOutcome) :
    (taskTrace id ps o).countP isTerminalEvent = 1 := by
  unfold taskTrace
  rw [List.countP_cons, List.countP_append, countP_progress_map_terminal,
    List.countP_cons, List.countP_nil, terminalEvent_is_terminal]
  simp [isTerminalEvent]

theorem trace_getLast (id : Nat) (ps : List ProgressInfo) (o : TaskOutcome) :
    (taskTrace id ps o).getLast? = some (terminalEvent id o) := by
  unfold taskTrace
  rw [← List.cons_append, List.getLast?_concat]

theorem trace_length (id : Nat) (ps : List ProgressInfo) (o : TaskOutcome) :
    (taskTrace id ps o).length = ps.length + 2 := by
  simp [taskTrace]

/-- Claim C3: for every task that is not silently dropped the emitted
trace satisfies the lifecycle discipline — exactly one Started which is
the first event, exactly one terminal Finished-or-Error which is the
last event, only Progress events in between — and positionally, any
Progress event in the trace sits at an index strictly after the Started
event and strictly before the terminal event. -/
theorem taskTrace_lifecycle (id : Nat) (ps : List ProgressInfo) (o : TaskOutcome) :
    lifecycleOk (taskTrace id ps o) = true ∧
    (∀ i e, (taskTrace id ps o)[i]? = some e → isProgressEvent e = true →
      0 < i ∧ i + 1 < (taskTrace id ps o).length) := by
  constructor
  · unfold lifecycleOk
    rw [trace_countP_started, trace_countP_terminal, trace_getLast]
    have hMid : ((taskTrace id ps o).drop 1).dropLast.all isProgressEvent = true := by
      unfold taskTrace
      rw [List.drop_one, List.tail_cons, List.dropLast_concat, List.all_eq_true]
      intro e he
      rcases List.mem_map.mp he with ⟨p, _, rfl⟩
      simp [isProgressEvent]
    rw [hMid]
    have hHead : (taskTrace id ps o).head? = some ⟨id, EventKind.started⟩ := rfl
    rw [hHead]
    simp [isStartedEvent, terminalEvent_is_terminal]
  · intro i e hGet hProg
    cases i with
    | zero =>
      have h0 : (taskTrace id ps o)[0]? = some ⟨id, EventKind.started⟩ := by
        simp [taskTrace]
      rw [h0] at hGet
      have hEq : (⟨id, EventKind.started⟩ : Event) = e := by
        injection hGet
      rw [← hEq] at hProg
      simp [isProgressEvent] at hProg
    | succ j =>
      refine ⟨Nat.succ_pos j, ?_⟩
      rw [trace_length]
      have hj : j < ps.length + 1 := by
        by_contra hge
        push_neg at hge
        have hNone : (taskTrace id ps o)[j + 1]? = none := by
          rw [List.getElem?_eq_none]
          rw [trace_length]
          omega
        rw [hNone] at hGet
        exact Option.noConfusion hGet
      rcases Nat.lt_or_ge j ps.length with hlt | hge
      · omega
      · have hj2 : j = ps.length := by omega
        subst hj2
        have hTerm : (taskTrace id ps o)[ps.length + 1]? = some (terminalEvent id o) := by
          unfold taskTrace
          rw [List.getElem?_cons_succ, List.getElem?_append_right (by simp)]
          simp
        rw [hTerm] at hGet
        have hEq : terminalEvent id o = e := by
          injection hGet
        rw [← hEq] at hProg
        cases o <;> simp [terminalEvent, isProgressEvent] at hProg

/-- Claim C3 witness: the lifecycle theorem applied to a concrete task
with one progress event, checking the positional part at the progress
event's index. -/
theorem taskTrace_lifecycle_witness :
    lifecycleOk (taskTrace 7 [⟨50, 5, 10, none⟩] (TaskOutcome.finished 3 2 "[1]")) = true ∧
    (0 < 1 ∧ 1 + 1 <
      (taskTrace 7 [⟨50, 5, 10, none⟩] (TaskOutcome.finished 3 2 "[1]")).length) := by
  refine ⟨(taskTrace_lifecycle 7 [⟨50, 5, 10, none⟩] (TaskOutcome.finished 3 2 "[1]")).1,
    (taskTrace_lifecycle 7 [⟨50, 5, 10, none⟩] (TaskOutcome.finished 3 2 "[1]")).2
      1 ⟨7, EventKind.progress ⟨50, 5, 10, none⟩⟩ (by decide) (by decide)⟩

/-- Modelled from the spec: the Event Broadcaster's state — the
datawise-core broadcast channel is not among the repository's sources —
one queue of received events per attached subscriber. -/
structure Broadcaster where
  queues : List (List Event)
deriving Repr, DecidableEq

/-- Modelled from the spec: attaching a subscriber adds a fresh empty
queue (no history replay) and hands back its index as the subscription. -/
def subscribe (b : Broadcaster) : Broadcaster × Nat :=
  ({ queues := b.queues ++ [[]] }, b.queues.length)

/-- Modelled from the spec: emitting an event appends it to the queue of
every attached subscriber. -/
def emit (b : Broadcaster) (e : Event) : Broadcaster :=
  { queues := b.queues.map (fun q => q ++ [e]) }

/-- Emitting a sequence of events in order. -/
def emitAll (b : Broadcaster) (es : List Event) : Broadcaster :=
  es.foldl emit b

/-- The ordered sequence of events a subscription has received so far. -/
def received (b : Broadcaster) (i : Nat) : List Event :=
  (b.queues[i]?).getD []

theorem emitAll_queues (es : List Event) (b : Broadcaster) :
    (emitAll b es).queues = b.queues.map (fun q => q ++ es) := by
  induction es generalizing b with
  | nil => simp [emitAll]
  | cons e rest ih =>
    rw [emitAll, List.foldl_cons]
    have hfold : List.foldl emit (emit b e) rest = emitAll (emit b e) rest := rfl
    rw [hfold, ih]
    simp [emit, List.map_map, Function.comp]

theorem received_emitAll (b : Broadcaster) (es : List Event) (i : Nat)
    (hi : b.queues[i]? = some []) : received (emitAll b es) i = es := by
  rw [received, emitAll_queues, List.getElem?_map, hi]
  simp

theorem subscribe_fresh (b : Broadcaster) :
    (subscribe b).1.queues[(subscribe b).2]? = some [] := by
  show (b.queues ++ [[]])[b.queues.length]? = some []
  rw [List.getElem?_append_right (Nat.le_refl _)]
  simp

theorem subscribe_keeps (b : Broadcaster) (i : Nat) (hi : i < b.queues.length) :
    (subscribe b).1.queues[i]? = b.queues[i]? := by
  show (b.queues ++ [[]])[i]? = b.queues[i]?
  rw [List.getElem?_append]
  simp [hi]

/-- Claim C7: two subscriptions attached (in either order) before a
command's events are broadcast observe the identical ordered sequence —
each receives exactly the events emitted after it attached, in emission
order, independent of the other subscriber; and a freshly attached
subscription has received nothing (no history replay), whatever was
broadcast before it attached. -/
theorem broadcaster_fanout (b : Broadcaster) (es : List Event) :
    received (emitAll (subscribe (subscribe b).1).1 es) (subscribe b).2 = es ∧
    received (emitAll (subscribe (subscribe b).1).1 es)
        (subscribe (subscribe b).1).2 = es ∧
    received (subscribe (subscribe b).1).1 (subscribe b).2 = [] ∧
    received (subscribe (subscribe b).1).1 (subscribe (subscribe b).1).2 = [] := by
  have h1 : (subscribe b).1.queues[(subscribe b).2]? = some [] := subscribe_fresh b
  have hlt : (subscribe b).2 < (subscribe b).1.queues.length := by
    simp [subscribe]
  have h2 : (subscribe (subscribe b).1).1.queues[(subscribe b).2]? = some [] := by
    rw [subscribe_keeps (subscribe b).1 (subscribe b).2 hlt]
    exact h1
  have h3 : (subscribe (subscribe b).1).1.queues[(subscribe (subscribe b).1).2]?
      = some [] := subscribe_fresh (subscribe b).1
  refine ⟨received_emitAll _ es _ h2, received_emitAll _ es _ h3, ?_, ?_⟩
  · rw [received, h2]
    rfl
  · rw [received, h3]
    rfl

/-- A table held by the analytical store: column names and rows. -/
structure Table where
  columns : List String
  rows : List (List String)
deriving Repr, DecidableEq

/-- The analytical store: an association of table names to tables. -/
abbrev Store := List (String × Table)

/-- Lookup of a table by name in the store. -/
def lookupTable (st : Store) (name : String) : Option Table :=
  match st with
  | [] => none
  | (n, t) :: rest => if n = name then some t else lookupTable rest name

/-- Installing a table under a name: replaces an existing binding of that
name and otherwise appends a new binding. -/
def setTable (st : Store) (name : String) (t : Table) : Store :=
  match st with
  | [] => [(name, t)]
  | (n, u) :: rest =>
    if n = name then (n, t) :: rest else (n, u) :: setTable rest name t

/-- Error taxonomy of the Importer (spec error handling design). -/
inductive ImportError where
  | tableExists : ImportError
  | unsupportedFormat : ImportError
  | ioFailure : ImportError
  | parseFailure : ImportError
deriving Repr, DecidableEq

/-- Modelled from the spec: the Importer's overwrite and atomicity
discipline — the datawise-core Importer is not among the repository's
sources. The source rows arrive in bounded chunks and accumulate in a
temporary table; only after the last chunk is the temporary table
renamed over the target name (create-into-temporary-then-rename). With
overwrite=false an existing target name fails up front with TableExists.
A crashAt of some k with k below the number of chunks models a crash at
chunk boundary k: the run stops before the final rename, so the
partially built temporary table is never installed under the name. -/
def importFile (st : Store) (name : String) (cols : List String)
    (chunks : List (List (List String))) (overwrite : Bool)
    (crashAt : Option Nat) : Except ImportError Store :=
  if (lookupTable st name).isSome && !overwrite then
    Except.error ImportError.tableExists
  else
    match crashAt with
    | some k =>
      if k < chunks.length then Except.error ImportError.ioFailure
      else Except.ok (setTable st name ⟨cols, chunks.flatten⟩)
    | none => Except.ok (setTable st name ⟨cols, chunks.flatten⟩)

/-- The store visible after an import attempt: the new store on success;
on any failure (TableExists or a crash) the untouched pre-import store. -/
def importVisibleStore (st : Store) (name : String) (cols : List String)
    (chunks : List (List (List String))) (overwrite : Bool)
    (crashAt : Option Nat) : Store :=
  match importFile st name cols chunks overwrite crashAt with
  | Except.ok st2 => st2
  | Except.error _ => st

theorem lookupTable_setTable (st : Store) (name : String) (t : Table) :
    lookupTable (setTable st name t) name = some t := by
  induction st with
  | nil => simp [setTable, lookupTable]
  | cons hd rest ih =>
    obtain ⟨n, u⟩ := hd
    by_cases h : n = name
    · simp [setTable, lookupTable, h]
    · simp [setTable, lookupTable, h, ih]

/-- Claim C4: importing into an existing table name with overwrite=false
fails with TableExists and the original table's binding is unchanged;
with overwrite=true and a completed run the table is fully replaced by
the new content; and under every crash point the name remains bound
exactly as before or to the complete new content — a crash mid-import
never leaves a half-written table visible under the old name. -/
theorem import_overwrite_semantics (st : Store) (name : String)
    (cols : List String) (chunks : List (List (List String)))
    (crashAt : Option Nat) (t0 : Table) :
    (lookupTable st name = some t0 →
      importFile st name cols chunks false crashAt
          = Except.error ImportError.tableExists ∧
      lookupTable (importVisibleStore st name cols chunks false crashAt) name
          = some t0) ∧
    (importFile st name cols chunks true none
        = Except.ok (setTable st name ⟨cols, chunks.flatten⟩) ∧
      lookupTable (importVisibleStore st name cols chunks true none) name
          = some ⟨cols, chunks.flatten⟩) ∧
    (lookupTable (importVisibleStore st name cols chunks true crashAt) name
        = lookupTable st name ∨
      lookupTable (importVisibleStore st name cols chunks true crashAt) name
        = some ⟨cols, chunks.flatten⟩) := by
  refine ⟨?_, ⟨?_, ?_⟩, ?_⟩
  · intro h
    have hs : (lookupTable st name).isSome = true := by
      rw [h]
      rfl
    constructor
    · simp [importFile, hs]
    · simp [importVisibleStore, importFile, hs, h]
  · simp [importFile]
  · simp [importVisibleStore, importFile, lookupTable_setTable]
  · rcases crashAt with _ | k
    · right
      simp [importVisibleStore, importFile, lookupTable_setTable]
    · by_cases hk : k < chunks.length
      · left
        simp [importVisibleStore, importFile, hk]
      · right
        simp [importVisibleStore, importFile, hk, lookupTable_setTable]

/-- Claim C4 witness: the overwrite theorem applied to a concrete store
holding one table, a concrete two-chunk source and a concrete crash
point, discharging the existing-table hypothesis. -/
theorem import_overwrite_semantics_witness :
    importFile [("t1", ⟨["a"], [["1"]]⟩)] "t1" ["b"] [[["2"]], [["3"]]] false (some 1)
        = Except.error ImportError.tableExists ∧
    lookupTable (importVisibleStore [("t1", ⟨["a"], [["1"]]⟩)] "t1" ["b"]
        [[["2"]], [["3"]]] false (some 1)) "t1" = some ⟨["a"], [["1"]]⟩ :=
  (import_overwrite_semantics [("t1", ⟨["a"], [["1"]]⟩)] "t1" ["b"]
    [[["2"]], [["3"]]] (some 1) ⟨["a"], [["1"]]⟩).1 (by decide)

end DataWise
